import Mathlib

/-!
# AI Programming Tutor front end: session state and request sequencing

A shallow embedding of `src/frontend/script.js`.

The script keeps two module-level variables (`currentTopic`, `currentProblem`)
and writes into a handful of page elements.  Every `async` function of the
script runs a synchronous first part up to its `fetch` call and is resumed
once, when the response body has been decoded (or the call has thrown).
Nothing touches the state between `await fetch(...)` and
`await response.json()`, so each function is embedded as two transitions:
the trigger (`selectTopic`, `loadExamples`, `loadPractice`, `submitSolution`)
and the arrival of its response (`explainResolved`, `examplesResolved`,
`practiceResolved`, `validateResolved`).  Responses may arrive in any order.

Markup is kept symbolic: each constructor of an `...Html` type is one of the
templates the script assigns to `innerHTML`, carrying the values the template
interpolates.  The templates insert backend-supplied values unescaped, so such
a value can bring elements of its own; the lookups by id that
`submitSolution` and `displayFeedback` make take what that markup contributes
as an input (`Injected`), used only when some value in the page holds a `<`.
Injected markup is given no behaviour besides these lookups.  The sidebar topic list (`loadTopics`, `displayTopics` and the
`active` highlighting inside `selectTopic`) and `console` output are page
chrome outside the session state and are left out; topics are strings.
-/

namespace AITutor

/-! ## JavaScript values and decoded response bodies -/

/-- A value found in a decoded JSON body, or `undefined` for a property that
is absent.  `num` is a finite number, as the rational it denotes; `infinity`
is what a numeral too large for a double decodes to; `structured` is an array
or object, given by the text `JSON.stringify` writes for it and by the text a
template literal inserts for it. -/
inductive JsVal where
  | undefined
  | null
  | bool (b : Bool)
  | num (q : ℚ)
  | infinity (negative : Bool)
  | str (s : String)
  | structured (json text : String)
  deriving DecidableEq, Repr

/-- JavaScript truthiness, as used by `if (data.error)`. -/
def JsVal.truthy : JsVal → Bool
  | .undefined => false
  | .null => false
  | .bool b => b
  | .num q => q != 0
  | .infinity _ => true
  | .str s => s != ""
  | .structured _ _ => true

/-- The text a template literal inserts for the value holds no `<`, so that
assigning it to `innerHTML` creates text only, no element.  Only strings and
the elements of arrays can bring a `<`. -/
def JsVal.inert : JsVal → Bool
  | .str s => s.data.all (fun c => c != '<')
  | .structured _ text => text.data.all (fun c => c != '<')
  | _ => true

/-- The value `JSON.stringify` writes for a property value: a non-finite
number is written as `null`. -/
def JsVal.toJson : JsVal → JsVal
  | .infinity _ => JsVal.null
  | v => v

/-- The result of `await response.json()`: JSON `null`, or a value with
properties.  A number, string, boolean or array body has none of the
properties the script reads and behaves as `object []`. -/
inductive Data where
  | null
  | object (fields : List (String × JsVal))
  deriving DecidableEq, Repr

/-- Property read `data.key` on a non-null body: the value, or `undefined`. -/
def prop (fields : List (String × JsVal)) (key : String) : JsVal :=
  (fields.lookup key).getD JsVal.undefined

/-- What resumes an awaiting function: `rejected` when `fetch` or
`response.json()` throws (network failure, body that is not JSON), otherwise
the decoded body. -/
inductive Response where
  | rejected
  | json (data : Data)
  deriving DecidableEq, Repr

/-! ## Page elements -/

/-- Content of `explanationArea`. -/
inductive ExplanationHtml where
  | initial
  | loading
  | error (msg : JsVal)
  | explanation (topic base_description base_example detailed_explanation : JsVal)
  deriving DecidableEq, Repr

/-- Content of `examplesArea`. -/
inductive ExamplesHtml where
  | initial
  | loading
  | error (msg : JsVal)
  | examples (topic examples : JsVal)
  deriving DecidableEq, Repr

/-- Content of the `feedbackArea` element created by `displayPractice`. -/
inductive FeedbackHtml where
  | empty
  | loading
  | error (msg : JsVal)
  | feedback (feedback : JsVal)
  deriving DecidableEq, Repr

/-- Content of `practiceArea`.  The `practice` template creates a fresh
`userCode` textarea, submit button and `feedbackArea`; `elem` identifies that
`feedbackArea` element, so that a reference captured by `submitSolution` can
be told apart from the element of a later `displayPractice`. -/
inductive PracticeHtml where
  | initial
  | loading
  | error (msg : JsVal)
  | practice (topic problem : JsVal) (elem : Nat) (feedbackArea : FeedbackHtml)
  deriving DecidableEq, Repr

/-- An element with id `feedbackArea`: the one a `practice` template created,
or one that came with markup inside a backend-supplied value (the templates
insert such values unescaped, and `document.getElementById` searches the
whole page). -/
inductive FeedbackRef where
  | template (elem : Nat)
  | foreign (elem : Nat)
  deriving DecidableEq, Repr

/-- The module-level variables and the page elements the script writes.
A `...Shown` flag is `style.display` being `block` rather than `none`;
`nextElem` numbers the elements created by `displayPractice`;
`foreignFeedback` records, newest first, what the script assigned to
`feedbackArea` elements that are not a template's. -/
structure State where
  currentTopic : String
  currentProblem : JsVal
  welcomeScreenShown : Bool
  learningSectionShown : Bool
  currentTopicTitle : Option String
  explanationArea : ExplanationHtml
  examplesShown : Bool
  examplesArea : ExamplesHtml
  practiceShown : Bool
  practiceArea : PracticeHtml
  nextElem : Nat
  foreignFeedback : List (Nat × FeedbackHtml)
  deriving DecidableEq, Repr

/-- Modelled from the spec: the page markup (index.html) is not under src/.
The variables start as the empty string (script.js lines 7-8); the spec says
the session is created with every panel Hidden, so the examples and practice
areas start not displayed and every area holds its static markup, which has
no `userCode` or `feedbackArea` element (the script creates them in
`displayPractice`). -/
def init : State where
  currentTopic := ""
  currentProblem := JsVal.str ""
  welcomeScreenShown := true
  learningSectionShown := false
  currentTopicTitle := none
  explanationArea := ExplanationHtml.initial
  examplesShown := false
  examplesArea := ExamplesHtml.initial
  practiceShown := false
  practiceArea := PracticeHtml.initial
  nextElem := 0
  foreignFeedback := []

/-! ## Element lookup -/

/-- The backend-supplied values a feedback area holds unescaped. -/
def FeedbackHtml.inserted : FeedbackHtml → List JsVal
  | FeedbackHtml.error msg => [msg]
  | FeedbackHtml.feedback fb => [fb]
  | _ => []

/-- The backend-supplied values the page holds unescaped, displayed or not
(`base_example` goes through `escapeHtml` and is not among them). -/
def State.inserted (s : State) : List JsVal :=
  (match s.explanationArea with
    | ExplanationHtml.error msg => [msg]
    | ExplanationHtml.explanation t bd _ de => [t, bd, de]
    | _ => []) ++
  (match s.examplesArea with
    | ExamplesHtml.error msg => [msg]
    | ExamplesHtml.examples t ex => [t, ex]
    | _ => []) ++
  (match s.practiceArea with
    | PracticeHtml.error msg => [msg]
    | PracticeHtml.practice t p _ fb => [t, p] ++ fb.inserted
    | _ => [])

/-- No backend-supplied value in the page brings markup: every element of
the page is then one of the static page or of a template. -/
def pageInert (s : State) : Bool := s.inserted.all JsVal.inert

/-- What the markup inside backend-supplied values contributes to the
lookups by id.  The symbolic templates do not hold that markup, so it is an
input of the transitions that look elements up: whether it has a `userCode`
element, and the `feedbackArea` element it puts before any template's one in
document order, if any.  It is consulted only when the page is not inert. -/
structure Injected where
  userCode : Bool
  feedbackArea : Option Nat
  deriving DecidableEq, Repr

/-- Whether `document.getElementById('userCode')` finds an element: the
textarea of a `practice` template, or one from injected markup. -/
def findUserCode (s : State) (dom : Injected) : Bool :=
  (match s.practiceArea with
    | PracticeHtml.practice _ _ _ _ => true
    | _ => false) || (!pageInert s && dom.userCode)

/-- The element `document.getElementById('feedbackArea')` returns, `none` for
`null`: the first in document order. -/
def findFeedbackArea (s : State) (dom : Injected) : Option FeedbackRef :=
  match (if pageInert s then none else dom.feedbackArea) with
  | some n => some (FeedbackRef.foreign n)
  | none =>
      match s.practiceArea with
      | PracticeHtml.practice _ _ elem _ => some (FeedbackRef.template elem)
      | _ => none

/-! ## Effects -/

/-- A `fetch` call: the URL and the object passed to `JSON.stringify`.
Every call of the modelled functions is a POST with a JSON content type. -/
structure Request where
  url : String
  body : List (String × JsVal)
  deriving DecidableEq, Repr

/-- What a trigger does besides changing the state. -/
inductive Effect where
  | fetch (req : Request)
  | alert (msg : String)
  | throws
  deriving DecidableEq, Repr

def API_BASE_URL : String := "http://localhost:5000"

/-- `JSON.stringify` of an object literal: properties whose value is
`undefined` are dropped, the others are written by `toJson`. -/
def jsonStringify (fields : List (String × JsVal)) : List (String × JsVal) :=
  (fields.filter (fun kv => kv.2 != JsVal.undefined)).map (fun kv => (kv.1, kv.2.toJson))

/-- Code points removed by `String.prototype.trim`: WhiteSpace and
LineTerminator of the ECMAScript grammar. -/
def isJsWhiteSpace (c : Char) : Bool :=
  let n := c.toNat
  n == 0x09 || n == 0x0A || n == 0x0B || n == 0x0C || n == 0x0D || n == 0x20
    || n == 0xA0 || n == 0x1680 || (0x2000 ≤ n && n ≤ 0x200A)
    || n == 0x2028 || n == 0x2029 || n == 0x202F || n == 0x205F
    || n == 0x3000 || n == 0xFEFF

/-- `String.prototype.trim`. -/
def trim (s : String) : String :=
  String.mk ((s.data.dropWhile isJsWhiteSpace).reverse.dropWhile isJsWhiteSpace).reverse

/-! ## The script's functions -/

/-- `loadExplanation(topic)` up to its `fetch`. -/
def loadExplanation (topic : String) (s : State) : State × List Effect :=
  ({ s with explanationArea := ExplanationHtml.loading },
   [Effect.fetch ⟨API_BASE_URL ++ "/explain", jsonStringify [("topic", JsVal.str topic)]⟩])

/-- `selectTopic(topic)` up to the `fetch` inside `loadExplanation`. -/
def selectTopic (topic : String) (s : State) : State × List Effect :=
  loadExplanation topic
    { s with
      currentTopic := topic
      welcomeScreenShown := false
      learningSectionShown := true
      currentTopicTitle := some ("📖 " ++ topic)
      examplesShown := false
      practiceShown := false }

/-- `displayExplanation(data)`. -/
def displayExplanation (fields : List (String × JsVal)) (s : State) : State :=
  { s with
    explanationArea :=
      ExplanationHtml.explanation (prop fields "topic") (prop fields "base_description")
        (prop fields "base_example") (prop fields "detailed_explanation") }

/-- `loadExplanation` from the arrival of its response. -/
def explainResolved (r : Response) (s : State) : State :=
  match r with
  | Response.json (Data.object fields) =>
      if (prop fields "error").truthy then
        { s with explanationArea := ExplanationHtml.error (prop fields "error") }
      else displayExplanation fields s
  | _ => { s with explanationArea :=
             ExplanationHtml.error (JsVal.str "Failed to load explanation") }

/-- `loadExamples()` up to its `fetch`. -/
def loadExamples (s : State) : State × List Effect :=
  if s.currentTopic = "" then (s, [Effect.alert "Please select a topic first"])
  else
    ({ s with examplesShown := true, examplesArea := ExamplesHtml.loading },
     [Effect.fetch ⟨API_BASE_URL ++ "/examples",
        jsonStringify [("topic", JsVal.str s.currentTopic)]⟩])

/-- `displayExamples(data)`. -/
def displayExamples (fields : List (String × JsVal)) (s : State) : State :=
  { s with
    examplesArea := ExamplesHtml.examples (prop fields "topic") (prop fields "examples") }

/-- `loadExamples` from the arrival of its response. -/
def examplesResolved (r : Response) (s : State) : State :=
  match r with
  | Response.json (Data.object fields) =>
      if (prop fields "error").truthy then
        { s with examplesArea := ExamplesHtml.error (prop fields "error") }
      else displayExamples fields s
  | _ => { s with examplesArea := ExamplesHtml.error (JsVal.str "Failed to load examples") }

/-- `loadPractice()` up to its `fetch`. -/
def loadPractice (s : State) : State × List Effect :=
  if s.currentTopic = "" then (s, [Effect.alert "Please select a topic first"])
  else
    ({ s with practiceShown := true, practiceArea := PracticeHtml.loading },
     [Effect.fetch ⟨API_BASE_URL ++ "/practice",
        jsonStringify [("topic", JsVal.str s.currentTopic)]⟩])

/-- `displayPractice(data)`: new textarea, button and empty `feedbackArea`. -/
def displayPractice (fields : List (String × JsVal)) (s : State) : State :=
  { s with
    practiceArea :=
      PracticeHtml.practice (prop fields "topic") (prop fields "problem") s.nextElem
        FeedbackHtml.empty
    nextElem := s.nextElem + 1 }

/-- `loadPractice` from the arrival of its response. -/
def practiceResolved (r : Response) (s : State) : State :=
  match r with
  | Response.json (Data.object fields) =>
      if (prop fields "error").truthy then
        { s with practiceArea := PracticeHtml.error (prop fields "error") }
      else displayPractice fields { s with currentProblem := prop fields "problem" }
  | _ => { s with practiceArea :=
             PracticeHtml.error (JsVal.str "Failed to load practice problem") }

/-- Assignment to `innerHTML` of a `feedbackArea` element the script holds.
A template's element that left the page when `practiceArea` was rewritten
shows nothing; an assignment to a foreign element is recorded. -/
def writeFeedback (ref : FeedbackRef) (html : FeedbackHtml) (s : State) : State :=
  match ref with
  | FeedbackRef.template captured =>
      match s.practiceArea with
      | PracticeHtml.practice topic problem elem _ =>
          if elem = captured then
            { s with practiceArea := PracticeHtml.practice topic problem elem html }
          else s
      | _ => s
  | FeedbackRef.foreign n => { s with foreignFeedback := (n, html) :: s.foreignFeedback }

/-- `submitSolution()` up to its `fetch`; `userCode` is the text in the
textarea the lookup finds.  Reading `.value` of `null` throws before anything
else happens; so does, after the blank check, the assignment to `innerHTML`
of a `feedbackArea` that was not found. -/
def submitSolution (userCode : String) (dom : Injected) (s : State) : State × List Effect :=
  if findUserCode s dom then
    if trim userCode = "" then (s, [Effect.alert "Please write some code first!"])
    else
      match findFeedbackArea s dom with
      | some ref =>
          (writeFeedback ref FeedbackHtml.loading s,
           [Effect.fetch ⟨API_BASE_URL ++ "/validate",
              jsonStringify [("topic", JsVal.str s.currentTopic),
                ("problem", s.currentProblem), ("code", JsVal.str userCode)]⟩])
      | none => (s, [Effect.throws])
  else (s, [Effect.throws])

/-- `displayFeedback(feedback)` inside the `try` of `submitSolution`: it
looks `feedbackArea` up again; when the page has none the assignment throws
and the `catch` writes the generic message to the captured element. -/
def displayFeedback (captured : FeedbackRef) (dom : Injected) (feedback : JsVal)
    (s : State) : State :=
  match findFeedbackArea s dom with
  | some ref => writeFeedback ref (FeedbackHtml.feedback feedback) s
  | none =>
      writeFeedback captured (FeedbackHtml.error (JsVal.str "Failed to validate solution")) s

/-- `submitSolution` from the arrival of its response; `captured` is the
`feedbackArea` element found when the call was made. -/
def validateResolved (captured : FeedbackRef) (dom : Injected) (r : Response)
    (s : State) : State :=
  match r with
  | Response.json (Data.object fields) =>
      if (prop fields "error").truthy then
        writeFeedback captured (FeedbackHtml.error (prop fields "error")) s
      else displayFeedback captured dom (prop fields "feedback") s
  | _ =>
      writeFeedback captured (FeedbackHtml.error (JsVal.str "Failed to validate solution")) s

/-! ## Sessions -/

/-- One thing that happens in a session: a user action or a response. -/
inductive Action where
  | selectTopic (topic : String)
  | explainResolved (r : Response)
  | loadExamples
  | examplesResolved (r : Response)
  | loadPractice
  | practiceResolved (r : Response)
  | submitSolution (userCode : String) (dom : Injected)
  | validateResolved (captured : FeedbackRef) (dom : Injected) (r : Response)
  deriving DecidableEq, Repr

/-- The transition of one action, with the effects it has. -/
def step (a : Action) (s : State) : State × List Effect :=
  match a with
  | Action.selectTopic topic => selectTopic topic s
  | Action.explainResolved r => (explainResolved r s, [])
  | Action.loadExamples => loadExamples s
  | Action.examplesResolved r => (examplesResolved r s, [])
  | Action.loadPractice => loadPractice s
  | Action.practiceResolved r => (practiceResolved r s, [])
  | Action.submitSolution userCode dom => submitSolution userCode dom s
  | Action.validateResolved captured dom r => (validateResolved captured dom r s, [])

/-- Runs the actions in order, collecting the effects. -/
def run : List Action → State → State × List Effect
  | [], s => (s, [])
  | a :: rest, s =>
      let r1 := step a s
      let r2 := run rest r1.1
      (r2.1, r1.2 ++ r2.2)

/-- The `fetch` calls among some effects. -/
def transportCalls (effects : List Effect) : List Request :=
  effects.filterMap (fun e => match e with
    | Effect.fetch req => some req
    | _ => none)

/-! ## Panels -/

inductive PanelKind where
  | explanation
  | examples
  | practice
  | feedback
  deriving DecidableEq, Repr

/-- What a populated panel shows. -/
inductive Content where
  | explanation (topic base_description base_example detailed_explanation : JsVal)
  | examples (topic examples : JsVal)
  | practice (topic problem : JsVal)
  | feedback (feedback : JsVal)
  deriving DecidableEq, Repr

inductive PanelStatus where
  | hidden
  | loading
  | populated (content : Content)
  | failed (msg : JsVal)
  deriving DecidableEq, Repr

def feedbackStatus : FeedbackHtml → PanelStatus
  | FeedbackHtml.empty => PanelStatus.hidden
  | FeedbackHtml.loading => PanelStatus.loading
  | FeedbackHtml.error msg => PanelStatus.failed msg
  | FeedbackHtml.feedback fb => PanelStatus.populated (Content.feedback fb)

/-- The status a panel presents: an area that is not displayed is Hidden
whatever its content, static markup counts as Hidden, and the feedback area
lives inside the practice area. -/
def panelStatus (s : State) : PanelKind → PanelStatus
  | PanelKind.explanation =>
      match s.explanationArea with
      | ExplanationHtml.initial => PanelStatus.hidden
      | ExplanationHtml.loading => PanelStatus.loading
      | ExplanationHtml.error msg => PanelStatus.failed msg
      | ExplanationHtml.explanation t bd be de =>
          PanelStatus.populated (Content.explanation t bd be de)
  | PanelKind.examples =>
      if s.examplesShown then
        match s.examplesArea with
        | ExamplesHtml.initial => PanelStatus.hidden
        | ExamplesHtml.loading => PanelStatus.loading
        | ExamplesHtml.error msg => PanelStatus.failed msg
        | ExamplesHtml.examples t ex => PanelStatus.populated (Content.examples t ex)
      else PanelStatus.hidden
  | PanelKind.practice =>
      if s.practiceShown then
        match s.practiceArea with
        | PracticeHtml.initial => PanelStatus.hidden
        | PracticeHtml.loading => PanelStatus.loading
        | PracticeHtml.error msg => PanelStatus.failed msg
        | PracticeHtml.practice t p _ _ => PanelStatus.populated (Content.practice t p)
      else PanelStatus.hidden
  | PanelKind.feedback =>
      if s.practiceShown then
        match s.practiceArea with
        | PracticeHtml.practice _ _ _ fb => feedbackStatus fb
        | _ => PanelStatus.hidden
      else PanelStatus.hidden

/-- The variable is empty in the script's sense: falsy. -/
def isEmpty (v : JsVal) : Bool := !v.truthy

/-! ## Auxiliary predicates -/

/-- The action is a topic selection. -/
def Action.isSelectTopic : Action → Bool
  | Action.selectTopic _ => true
  | _ => false

/-- Where `currentProblem` comes from, `pre` being the actions so far: a
non-empty value was carried by a practice response that took the success
path, and a problem shown in the practice area is the current one. -/
def ProblemInv (pre : List Action) (s : State) : Prop :=
  (s.currentProblem.truthy = true →
    ∃ fields, Action.practiceResolved (Response.json (Data.object fields)) ∈ pre ∧
      (prop fields "error").truthy = false ∧ prop fields "problem" = s.currentProblem) ∧
  (∀ t p e fb, s.practiceArea = PracticeHtml.practice t p e fb → p = s.currentProblem)

/-! ## Scenario data -/

/-- A practice response for "Recursion" carrying a problem. -/
def factorialBody : List (String × JsVal) :=
  [("topic", JsVal.str "Recursion"), ("problem", JsVal.str "Write a factorial function")]

/-- A practice response whose problem text is the empty string. -/
def emptyProblemBody : List (String × JsVal) :=
  [("topic", JsVal.str "Recursion"), ("problem", JsVal.str "")]

/-- A response whose `error` property is present and is the empty string. -/
def emptyErrorBody : List (String × JsVal) :=
  [("error", JsVal.str ""), ("topic", JsVal.str "Recursion"),
   ("problem", JsVal.str "Write a factorial function")]

/-- Lookups in a page whose backend-supplied values bring no element. -/
def noInjected : Injected := ⟨false, none⟩

/-- An examples response whose text brings a textarea and a feedback area. -/
def markupBody : List (String × JsVal) :=
  [("topic", JsVal.str "Recursion"),
   ("examples", JsVal.str "<textarea id=userCode>x = 1</textarea><div id=feedbackArea></div>")]

/-- A backend error response. -/
def quotaErrorBody : List (String × JsVal) :=
  [("error", JsVal.str "Quota exceeded")]

/-- An explanation response for "Recursion". -/
def recursionBody : List (String × JsVal) :=
  [("topic", JsVal.str "Recursion"), ("base_description", JsVal.str "A function calling itself"),
   ("base_example", JsVal.str "def f(n): return f(n-1)"),
   ("detailed_explanation", JsVal.str "Base case and recursive case")]

/-! ## Sanity checks of the embedding -/

example : (run [Action.loadExamples] init).2 = [Effect.alert "Please select a topic first"] := by
  decide

example : trim " \n x y\t" = "x y" := by decide

/-! ## Basic facts -/

theorem jsonStringify_topic (t : String) :
    jsonStringify [("topic", JsVal.str t)] = [("topic", JsVal.str t)] := by
  simp [jsonStringify, JsVal.toJson]

theorem run_nil (s : State) : run [] s = (s, []) := rfl

theorem run_cons (a : Action) (rest : List Action) (s : State) :
    run (a :: rest) s = ((run rest (step a s).1).1, (step a s).2 ++ (run rest (step a s).1).2) := rfl

/-! ## Frames of the response handlers -/

theorem explainResolved_frame (r : Response) (s : State) :
    explainResolved r s = { s with explanationArea := (explainResolved r s).explanationArea } := by
  unfold explainResolved displayExplanation
  split
  · split <;> rfl
  · rfl

theorem examplesResolved_frame (r : Response) (s : State) :
    examplesResolved r s = { s with examplesArea := (examplesResolved r s).examplesArea } := by
  unfold examplesResolved displayExamples
  split
  · split <;> rfl
  · rfl

theorem practiceResolved_frame (r : Response) (s : State) :
    practiceResolved r s = { s with
      currentProblem := (practiceResolved r s).currentProblem
      practiceArea := (practiceResolved r s).practiceArea
      nextElem := (practiceResolved r s).nextElem } := by
  unfold practiceResolved displayPractice
  split
  · split <;> rfl
  · rfl

theorem writeFeedback_frame (ref : FeedbackRef) (h : FeedbackHtml) (s : State) :
    writeFeedback ref h s = { s with
      practiceArea := (writeFeedback ref h s).practiceArea
      foreignFeedback := (writeFeedback ref h s).foreignFeedback } := by
  unfold writeFeedback
  split
  · split
    · split <;> rfl
    · rfl
  · rfl

theorem validateResolved_frame (c : FeedbackRef) (dom : Injected) (r : Response) (s : State) :
    validateResolved c dom r s = { s with
      practiceArea := (validateResolved c dom r s).practiceArea
      foreignFeedback := (validateResolved c dom r s).foreignFeedback } := by
  unfold validateResolved displayFeedback
  split
  · split
    · exact writeFeedback_frame _ _ _
    · split
      · exact writeFeedback_frame _ _ _
      · exact writeFeedback_frame _ _ _
  · exact writeFeedback_frame _ _ _

theorem submitSolution_frame (code : String) (dom : Injected) (s : State) :
    (submitSolution code dom s).1 = { s with
      practiceArea := (submitSolution code dom s).1.practiceArea
      foreignFeedback := (submitSolution code dom s).1.foreignFeedback } := by
  unfold submitSolution
  split
  · split
    · rfl
    · split
      · exact writeFeedback_frame _ _ _
      · rfl
  · rfl

theorem step_keeps_practice_shown (a : Action) (s : State) (ha : a.isSelectTopic = false)
    (hs : s.practiceShown = true) :
    (step a s).1.practiceShown = true ∧ (step a s).1.currentTopic = s.currentTopic := by
  cases a with
  | selectTopic t => simp [Action.isSelectTopic] at ha
  | explainResolved r => simp only [step]; rw [explainResolved_frame]; exact ⟨hs, rfl⟩
  | loadExamples => simp only [step, loadExamples]; split <;> exact ⟨hs, rfl⟩
  | examplesResolved r => simp only [step]; rw [examplesResolved_frame]; exact ⟨hs, rfl⟩
  | loadPractice =>
      simp only [step, loadPractice]
      split <;> first | exact ⟨hs, rfl⟩ | exact ⟨rfl, rfl⟩
  | practiceResolved r => simp only [step]; rw [practiceResolved_frame]; exact ⟨hs, rfl⟩
  | submitSolution c dom => simp only [step]; rw [submitSolution_frame]; exact ⟨hs, rfl⟩
  | validateResolved c dom r => simp only [step]; rw [validateResolved_frame]; exact ⟨hs, rfl⟩

theorem run_keeps_practice_shown (acts : List Action) (s : State)
    (hacts : ∀ a ∈ acts, a.isSelectTopic = false) (hs : s.practiceShown = true) :
    (run acts s).1.practiceShown = true ∧ (run acts s).1.currentTopic = s.currentTopic := by
  induction acts generalizing s with
  | nil => exact ⟨hs, rfl⟩
  | cons a rest ih =>
      have h1 := step_keeps_practice_shown a s (hacts a (List.mem_cons_self a rest)) hs
      have h2 := ih (step a s).1 (fun b hb => hacts b (List.mem_cons_of_mem a hb)) h1.1
      rw [run_cons]
      exact ⟨h2.1, h2.2.trans h1.2⟩

/-! ## Element lookup in a page without injected markup -/

theorem findUserCode_inert (s : State) (dom : Injected) (hi : pageInert s = true)
    (hno : ∀ t p e fb, s.practiceArea ≠ PracticeHtml.practice t p e fb) :
    findUserCode s dom = false := by
  unfold findUserCode
  split
  · rename_i t p e fb heq
    exact absurd heq (hno t p e fb)
  · simp [hi]

theorem findUserCode_template (s : State) (dom : Injected) (t p : JsVal) (e : Nat)
    (fb : FeedbackHtml) (hp : s.practiceArea = PracticeHtml.practice t p e fb) :
    findUserCode s dom = true := by
  simp [findUserCode, hp]

theorem findFeedbackArea_inert (s : State) (dom : Injected) (t p : JsVal) (e : Nat)
    (fb : FeedbackHtml) (hi : pageInert s = true)
    (hp : s.practiceArea = PracticeHtml.practice t p e fb) :
    findFeedbackArea s dom = some (FeedbackRef.template e) := by
  simp [findFeedbackArea, hi, hp]

theorem findFeedbackArea_template (s : State) (dom : Injected) (t p : JsVal) (e : Nat)
    (fb : FeedbackHtml) (hp : s.practiceArea = PracticeHtml.practice t p e fb) :
    ∃ ref, findFeedbackArea s dom = some ref := by
  unfold findFeedbackArea
  split
  · exact ⟨_, rfl⟩
  · exact ⟨FeedbackRef.template e, by simp [hp]⟩

theorem writeFeedback_template (s : State) (html : FeedbackHtml) (t p : JsVal) (e : Nat)
    (fb : FeedbackHtml) (hp : s.practiceArea = PracticeHtml.practice t p e fb) :
    writeFeedback (FeedbackRef.template e) html s
      = { s with practiceArea := PracticeHtml.practice t p e html } := by
  simp [writeFeedback, hp]

theorem writeFeedback_gone (s : State) (html : FeedbackHtml) (c : Nat)
    (hno : ∀ t p fb, s.practiceArea ≠ PracticeHtml.practice t p c fb) :
    writeFeedback (FeedbackRef.template c) html s = s := by
  unfold writeFeedback
  split
  · rename_i c0 hc
    cases hc
    split
    · rename_i t p e fb heq
      split
      · rename_i hec
        subst hec
        exact absurd heq (hno t p fb)
      · rfl
    · rfl
  · rename_i n hc
    cases hc

/-! ## Provenance of `currentProblem` -/

theorem problemInv_mono {pre : List Action} {s : State} (a : Action) (h : ProblemInv pre s) :
    ProblemInv (pre ++ [a]) s := by
  refine ⟨fun ht => ?_, h.2⟩
  obtain ⟨fields, hm, h1, h2⟩ := h.1 ht
  exact ⟨fields, List.mem_append_left _ hm, h1, h2⟩

theorem problemInv_congr {pre : List Action} {s u : State} (h : ProblemInv pre s)
    (hp : u.currentProblem = s.currentProblem)
    (ha : ∀ t p e fb, u.practiceArea = PracticeHtml.practice t p e fb →
      ∃ fb0, s.practiceArea = PracticeHtml.practice t p e fb0) :
    ProblemInv pre u := by
  refine ⟨fun ht => ?_, fun t p e fb hu => ?_⟩
  · rw [hp] at ht ⊢
    exact h.1 ht
  · obtain ⟨fb0, h0⟩ := ha t p e fb hu
    rw [hp]
    exact h.2 t p e fb0 h0

theorem writeFeedback_area (ref : FeedbackRef) (html : FeedbackHtml) (s : State) (t p : JsVal)
    (e : Nat) (fb : FeedbackHtml)
    (h : (writeFeedback ref html s).practiceArea = PracticeHtml.practice t p e fb) :
    ∃ fb0, s.practiceArea = PracticeHtml.practice t p e fb0 := by
  unfold writeFeedback at h
  split at h
  · split at h
    · rename_i t0 p0 e0 fb0 heq
      split at h
      · simp only [PracticeHtml.practice.injEq] at h
        obtain ⟨rfl, rfl, rfl, _⟩ := h
        exact ⟨fb0, heq⟩
      · exact ⟨fb, h⟩
    · exact ⟨fb, h⟩
  · exact ⟨fb, h⟩

theorem validateResolved_area (c : FeedbackRef) (dom : Injected) (r : Response) (s : State)
    (t p : JsVal) (e : Nat) (fb : FeedbackHtml)
    (h : (validateResolved c dom r s).practiceArea = PracticeHtml.practice t p e fb) :
    ∃ fb0, s.practiceArea = PracticeHtml.practice t p e fb0 := by
  unfold validateResolved displayFeedback at h
  split at h
  · split at h
    · exact writeFeedback_area _ _ _ _ _ _ _ h
    · split at h
      · exact writeFeedback_area _ _ _ _ _ _ _ h
      · exact writeFeedback_area _ _ _ _ _ _ _ h
  · exact writeFeedback_area _ _ _ _ _ _ _ h

theorem submitSolution_area (code : String) (dom : Injected) (s : State) (t p : JsVal)
    (e : Nat) (fb : FeedbackHtml)
    (h : (submitSolution code dom s).1.practiceArea = PracticeHtml.practice t p e fb) :
    ∃ fb0, s.practiceArea = PracticeHtml.practice t p e fb0 := by
  unfold submitSolution at h
  split at h
  · split at h
    · exact ⟨fb, h⟩
    · split at h
      · exact writeFeedback_area _ _ _ _ _ _ _ h
      · exact ⟨fb, h⟩
  · exact ⟨fb, h⟩

theorem problemInv_step {pre : List Action} {s : State} (a : Action) (h : ProblemInv pre s) :
    ProblemInv (pre ++ [a]) (step a s).1 := by
  cases a with
  | selectTopic topic =>
      exact problemInv_congr (problemInv_mono _ h) rfl (fun t p e fb hu => ⟨fb, hu⟩)
  | explainResolved r =>
      refine problemInv_congr (problemInv_mono _ h) ?_ (fun t p e fb hu => ⟨fb, ?_⟩)
      · simp only [AITutor.step]; rw [explainResolved_frame]
      · simp only [AITutor.step] at hu; rw [explainResolved_frame] at hu; exact hu
  | loadExamples =>
      refine problemInv_congr (problemInv_mono _ h) ?_ (fun t p e fb hu => ⟨fb, ?_⟩)
      · simp only [AITutor.step, loadExamples]; split <;> rfl
      · simp only [AITutor.step, loadExamples] at hu; split at hu <;> exact hu
  | examplesResolved r =>
      refine problemInv_congr (problemInv_mono _ h) ?_ (fun t p e fb hu => ⟨fb, ?_⟩)
      · simp only [AITutor.step]; rw [examplesResolved_frame]
      · simp only [AITutor.step] at hu; rw [examplesResolved_frame] at hu; exact hu
  | loadPractice =>
      refine problemInv_congr (problemInv_mono _ h) ?_ (fun t p e fb hu => ⟨fb, ?_⟩)
      · simp only [AITutor.step, loadPractice]; split <;> rfl
      · simp only [AITutor.step, loadPractice] at hu
        split at hu
        · exact hu
        · simp at hu
  | submitSolution code dom =>
      refine problemInv_congr (problemInv_mono _ h) ?_
        (fun t p e fb hu => submitSolution_area code dom s t p e fb hu)
      simp only [AITutor.step]; rw [submitSolution_frame]
  | validateResolved c dom r =>
      refine problemInv_congr (problemInv_mono _ h) ?_
        (fun t p e fb hu => validateResolved_area c dom r s t p e fb hu)
      simp only [AITutor.step]; rw [validateResolved_frame]
  | practiceResolved r =>
      simp only [AITutor.step]
      unfold practiceResolved displayPractice
      split
      · rename_i fields
        split
        · exact problemInv_congr (problemInv_mono _ h) rfl (fun t p e fb hu => by simp at hu)
        · rename_i herr
          refine ⟨fun _ => ⟨fields, by simp, by simpa using herr, rfl⟩, fun t p e fb hu => ?_⟩
          simp only [PracticeHtml.practice.injEq] at hu
          exact hu.2.1.symm
      · exact problemInv_congr (problemInv_mono _ h) rfl (fun t p e fb hu => by simp at hu)

theorem problemInv_run (acts : List Action) {pre : List Action} {s : State}
    (h : ProblemInv pre s) : ProblemInv (pre ++ acts) (run acts s).1 := by
  induction acts generalizing pre s with
  | nil => simpa [run_nil] using h
  | cons a rest ih =>
      have := ih (problemInv_step a h)
      rw [run_cons]
      simpa using this

theorem problemInv_init : ProblemInv [] init :=
  ⟨fun h => by simp [AITutor.init, JsVal.truthy] at h, fun t p e fb h => by simp [AITutor.init] at h⟩

theorem step_currentProblem (a : Action) (s : State)
    (h : (step a s).1.currentProblem ≠ s.currentProblem) :
    ∃ fields, a = Action.practiceResolved (Response.json (Data.object fields)) ∧
      (prop fields "error").truthy = false ∧
      (step a s).1.currentProblem = prop fields "problem" := by
  cases a with
  | selectTopic topic => exact absurd rfl h
  | explainResolved r =>
      simp only [step] at h; rw [explainResolved_frame] at h; exact absurd rfl h
  | loadExamples =>
      simp only [step, loadExamples] at h; split at h <;> exact absurd rfl h
  | examplesResolved r =>
      simp only [step] at h; rw [examplesResolved_frame] at h; exact absurd rfl h
  | loadPractice =>
      simp only [step, loadPractice] at h; split at h <;> exact absurd rfl h
  | submitSolution code dom =>
      simp only [step] at h; rw [submitSolution_frame] at h; exact absurd rfl h
  | validateResolved c dom r =>
      simp only [step] at h; rw [validateResolved_frame] at h; exact absurd rfl h
  | practiceResolved r =>
      simp only [step] at h ⊢
      unfold practiceResolved displayPractice at h ⊢
      split at h
      · rename_i fields
        split at h
        · exact absurd rfl h
        · rename_i herr
          refine ⟨fields, rfl, by simpa using herr, ?_⟩
          simp [herr]
      · exact absurd rfl h

/-! ## Claims -/

/-- C9 (no-topic guard): when `currentTopic` is empty, `loadExamples` and
`loadPractice` only raise the alert: they return the state they were given
(so the topic, the problem and all four panel statuses are as before) and
issue no `fetch`. -/
theorem no_topic_guard (s : State) (h : s.currentTopic = "") :
    (loadExamples s).1 = s ∧ (loadPractice s).1 = s ∧
    (∀ k, panelStatus (loadExamples s).1 k = panelStatus s k) ∧
    (∀ k, panelStatus (loadPractice s).1 k = panelStatus s k) ∧
    transportCalls (loadExamples s).2 = [] ∧ transportCalls (loadPractice s).2 = [] ∧
    (loadExamples s).2 = [Effect.alert "Please select a topic first"] ∧
    (loadPractice s).2 = [Effect.alert "Please select a topic first"] := by
  simp [loadExamples, loadPractice, h, transportCalls]

theorem no_topic_guard_witness :
    init.currentTopic = "" ∧ (loadExamples init).1 = init ∧ (loadPractice init).1 = init ∧
    transportCalls (loadExamples init).2 = [] ∧ transportCalls (loadPractice init).2 = [] :=
  ⟨rfl, (no_topic_guard init rfl).1, (no_topic_guard init rfl).2.1,
    (no_topic_guard init rfl).2.2.2.2.1, (no_topic_guard init rfl).2.2.2.2.2.1⟩

/-- C3, as stated, fails: with "Recursion" selected, the first `loadExamples`
leaves the Examples panel Loading and the second one, issued before any
response, is not dropped: two requests are sent, not one. -/
theorem dedup_guard_counterexample :
    panelStatus (loadExamples (selectTopic "Recursion" init).1).1 PanelKind.examples
      = PanelStatus.loading ∧
    transportCalls (run [Action.loadExamples, Action.loadExamples]
      (selectTopic "Recursion" init).1).2
      = [⟨API_BASE_URL ++ "/examples", [("topic", JsVal.str "Recursion")]⟩,
         ⟨API_BASE_URL ++ "/examples", [("topic", JsVal.str "Recursion")]⟩] ∧
    (transportCalls (run [Action.loadExamples, Action.loadExamples]
      (selectTopic "Recursion" init).1).2).length ≠ 1 := by
  decide

/-- C3 (amended): with a topic selected, every `loadExamples` trigger sets
the Examples panel to Loading and sends exactly one POST to /examples with
the current topic, whether or not the panel is already Loading; two triggers
in a row send two identical requests. -/
theorem loadExamples_always_fetches (s : State) (h : s.currentTopic ≠ "") :
    transportCalls (loadExamples s).2
      = [⟨API_BASE_URL ++ "/examples", [("topic", JsVal.str s.currentTopic)]⟩] ∧
    panelStatus (loadExamples s).1 PanelKind.examples = PanelStatus.loading ∧
    transportCalls (run [Action.loadExamples, Action.loadExamples] s).2
      = [⟨API_BASE_URL ++ "/examples", [("topic", JsVal.str s.currentTopic)]⟩,
         ⟨API_BASE_URL ++ "/examples", [("topic", JsVal.str s.currentTopic)]⟩] := by
  simp [run, step, loadExamples, h, transportCalls, panelStatus, jsonStringify, JsVal.toJson]

theorem loadExamples_always_fetches_witness :
    (selectTopic "Loops" init).1.currentTopic ≠ "" ∧
    (transportCalls (run [Action.loadExamples, Action.loadExamples]
      (selectTopic "Loops" init).1).2).length = 2 :=
  ⟨by decide, by
    rw [(loadExamples_always_fetches (selectTopic "Loops" init).1 (by decide)).2.2]
    rfl⟩

/-- C10, as stated, fails: with "Recursion" selected and its explanation
shown, selecting "Recursion" again is not a no-op: the Explanation panel goes
from Populated back to Loading and a new explain request is sent. -/
theorem reselect_counterexample :
    (run [Action.selectTopic "Recursion",
      Action.explainResolved (Response.json (Data.object recursionBody))] init).1.currentTopic
      = "Recursion" ∧
    (selectTopic "Recursion" (run [Action.selectTopic "Recursion",
      Action.explainResolved (Response.json (Data.object recursionBody))] init).1).1
      ≠ (run [Action.selectTopic "Recursion",
      Action.explainResolved (Response.json (Data.object recursionBody))] init).1 ∧
    panelStatus (run [Action.selectTopic "Recursion",
      Action.explainResolved (Response.json (Data.object recursionBody))] init).1
      PanelKind.explanation ≠ PanelStatus.loading ∧
    panelStatus (selectTopic "Recursion" (run [Action.selectTopic "Recursion",
      Action.explainResolved (Response.json (Data.object recursionBody))] init).1).1
      PanelKind.explanation = PanelStatus.loading ∧
    transportCalls (selectTopic "Recursion" (run [Action.selectTopic "Recursion",
      Action.explainResolved (Response.json (Data.object recursionBody))] init).1).2
      = [⟨API_BASE_URL ++ "/explain", [("topic", JsVal.str "Recursion")]⟩] := by
  decide

/-- C10 (amended): selecting the topic that is already selected keeps
`currentTopic` and `currentProblem`, but is otherwise a full selection: the
Explanation panel becomes Loading, Examples, Practice and Feedback become
Hidden, and one new explain request for the topic is sent.  It is idempotent
only in that a second reselection right after the first leaves the state of
the first (and sends its own request). -/
theorem reselect_reloads (s : State) (T : String) (h : s.currentTopic = T) :
    (selectTopic T s).1.currentTopic = s.currentTopic ∧
    (selectTopic T s).1.currentProblem = s.currentProblem ∧
    panelStatus (selectTopic T s).1 PanelKind.explanation = PanelStatus.loading ∧
    panelStatus (selectTopic T s).1 PanelKind.examples = PanelStatus.hidden ∧
    panelStatus (selectTopic T s).1 PanelKind.practice = PanelStatus.hidden ∧
    panelStatus (selectTopic T s).1 PanelKind.feedback = PanelStatus.hidden ∧
    transportCalls (selectTopic T s).2
      = [⟨API_BASE_URL ++ "/explain", [("topic", JsVal.str T)]⟩] ∧
    (selectTopic T (selectTopic T s).1).1 = (selectTopic T s).1 ∧
    transportCalls (selectTopic T (selectTopic T s).1).2
      = [⟨API_BASE_URL ++ "/explain", [("topic", JsVal.str T)]⟩] := by
  subst h
  simp [selectTopic, loadExplanation, transportCalls, panelStatus, jsonStringify, JsVal.toJson]

theorem reselect_reloads_witness :
    (selectTopic "Loops" init).1.currentTopic = "Loops" ∧
    (selectTopic "Loops" (selectTopic "Loops" (selectTopic "Loops" init).1).1).1
      = (selectTopic "Loops" (selectTopic "Loops" init).1).1 :=
  ⟨rfl, (reselect_reloads (selectTopic "Loops" init).1 "Loops" rfl).2.2.2.2.2.2.2.1⟩

/-- C2, as stated, fails: after a practice problem has been fetched for
"Recursion", selecting "Loops" leaves `currentProblem` holding that problem
instead of emptying it. -/
theorem reset_counterexample :
    (run [Action.selectTopic "Recursion", Action.loadPractice,
      Action.practiceResolved (Response.json (Data.object factorialBody)),
      Action.selectTopic "Loops"] init).1.currentProblem
      = JsVal.str "Write a factorial function" ∧
    isEmpty (run [Action.selectTopic "Recursion", Action.loadPractice,
      Action.practiceResolved (Response.json (Data.object factorialBody)),
      Action.selectTopic "Loops"] init).1.currentProblem = false := by
  decide

/-- C2 (amended): from every state, `selectTopic T2` yields
`currentTopic = T2`, the Examples, Practice and Feedback panels Hidden and
the Explanation panel Loading, and sends one explain request for `T2`;
`currentProblem` is left as it was, not emptied. -/
theorem selectTopic_resets_panels (s : State) (T2 : String) :
    (selectTopic T2 s).1.currentTopic = T2 ∧
    (selectTopic T2 s).1.currentProblem = s.currentProblem ∧
    panelStatus (selectTopic T2 s).1 PanelKind.examples = PanelStatus.hidden ∧
    panelStatus (selectTopic T2 s).1 PanelKind.practice = PanelStatus.hidden ∧
    panelStatus (selectTopic T2 s).1 PanelKind.feedback = PanelStatus.hidden ∧
    panelStatus (selectTopic T2 s).1 PanelKind.explanation = PanelStatus.loading ∧
    transportCalls (selectTopic T2 s).2
      = [⟨API_BASE_URL ++ "/explain", [("topic", JsVal.str T2)]⟩] := by
  simp [selectTopic, loadExplanation, transportCalls, panelStatus, jsonStringify, JsVal.toJson]

/-- C1, as stated, fails: a practice fetch is started for "Recursion", "Loops"
is selected before it resolves, and the late response is applied all the
same: `currentProblem` changes from empty to the problem of the abandoned
topic and the practice area receives its markup. -/
theorem staleness_counterexample :
    (run [Action.selectTopic "Recursion", Action.loadPractice,
      Action.selectTopic "Loops"] init).1.currentProblem = JsVal.str "" ∧
    (practiceResolved (Response.json (Data.object factorialBody))
      (run [Action.selectTopic "Recursion", Action.loadPractice,
        Action.selectTopic "Loops"] init).1).currentProblem
      = JsVal.str "Write a factorial function" ∧
    (practiceResolved (Response.json (Data.object factorialBody))
      (run [Action.selectTopic "Recursion", Action.loadPractice,
        Action.selectTopic "Loops"] init).1).currentTopic = "Loops" ∧
    (practiceResolved (Response.json (Data.object factorialBody))
      (run [Action.selectTopic "Recursion", Action.loadPractice,
        Action.selectTopic "Loops"] init).1).practiceArea
      ≠ (run [Action.selectTopic "Recursion", Action.loadPractice,
        Action.selectTopic "Loops"] init).1.practiceArea := by
  decide

/-- C1 (amended): when a practice fetch is started with a topic selected and
another topic `T2` is selected before it resolves, a successful response
arriving afterwards is applied, not discarded: `currentProblem` becomes the
problem it carries and the practice area holds that problem's markup.  Only
the visibility set by the topic switch survives: the practice area stays not
displayed, so the Practice and Feedback panels stay Hidden; `currentTopic`
stays `T2` and the explanation and examples areas are untouched. -/
theorem stale_practice_response_applied (s : State) (T2 : String)
    (fields : List (String × JsVal)) (h : s.currentTopic ≠ "")
    (hok : (prop fields "error").truthy = false) :
    (practiceResolved (Response.json (Data.object fields))
      (selectTopic T2 (loadPractice s).1).1).currentProblem = prop fields "problem" ∧
    (practiceResolved (Response.json (Data.object fields))
      (selectTopic T2 (loadPractice s).1).1).practiceArea
      = PracticeHtml.practice (prop fields "topic") (prop fields "problem") s.nextElem
          FeedbackHtml.empty ∧
    panelStatus (practiceResolved (Response.json (Data.object fields))
      (selectTopic T2 (loadPractice s).1).1) PanelKind.practice = PanelStatus.hidden ∧
    panelStatus (practiceResolved (Response.json (Data.object fields))
      (selectTopic T2 (loadPractice s).1).1) PanelKind.feedback = PanelStatus.hidden ∧
    (practiceResolved (Response.json (Data.object fields))
      (selectTopic T2 (loadPractice s).1).1).currentTopic = T2 ∧
    (practiceResolved (Response.json (Data.object fields))
      (selectTopic T2 (loadPractice s).1).1).explanationArea
      = (selectTopic T2 (loadPractice s).1).1.explanationArea ∧
    (practiceResolved (Response.json (Data.object fields))
      (selectTopic T2 (loadPractice s).1).1).examplesArea
      = (selectTopic T2 (loadPractice s).1).1.examplesArea := by
  simp [practiceResolved, displayPractice, selectTopic, loadExplanation, loadPractice, h, hok,
    panelStatus]

theorem stale_practice_response_applied_witness :
    (selectTopic "Recursion" init).1.currentTopic ≠ "" ∧
    (prop factorialBody "error").truthy = false ∧
    (practiceResolved (Response.json (Data.object factorialBody))
      (selectTopic "Loops" (loadPractice (selectTopic "Recursion" init).1).1).1).currentProblem
      = JsVal.str "Write a factorial function" :=
  ⟨by decide, by decide,
    (stale_practice_response_applied (selectTopic "Recursion" init).1 "Loops" factorialBody
      (by decide) (by decide)).1⟩

/-- C4, as stated, fails: the practice response for "Recursion" carries an
empty problem text, so `currentProblem` is empty while the problem markup
with its textarea is shown; `submitSolution` with non-blank code then sends
the validate request and sets the Feedback panel to Loading. -/
theorem submit_precondition_counterexample :
    isEmpty (run [Action.selectTopic "Recursion", Action.loadPractice,
      Action.practiceResolved (Response.json (Data.object emptyProblemBody))]
      init).1.currentProblem = true ∧
    transportCalls (submitSolution "def f(n): return 1" noInjected
      (run [Action.selectTopic "Recursion", Action.loadPractice,
        Action.practiceResolved (Response.json (Data.object emptyProblemBody))] init).1).2
      = [⟨API_BASE_URL ++ "/validate",
          [("topic", JsVal.str "Recursion"), ("problem", JsVal.str ""),
           ("code", JsVal.str "def f(n): return 1")]⟩] ∧
    panelStatus (run [Action.selectTopic "Recursion", Action.loadPractice,
      Action.practiceResolved (Response.json (Data.object emptyProblemBody))] init).1
      PanelKind.feedback = PanelStatus.hidden ∧
    panelStatus (submitSolution "def f(n): return 1" noInjected
      (run [Action.selectTopic "Recursion", Action.loadPractice,
        Action.practiceResolved (Response.json (Data.object emptyProblemBody))] init).1).1
      PanelKind.feedback = PanelStatus.loading := by
  decide

/-- C4 (amended): `submitSolution` sends nothing and returns the state it was
given (so the Feedback panel is unchanged) in these cases: the code is blank
after trimming (alert, when the textarea is found), the page has no
`userCode` element, or it has no `feedbackArea` element (both throw).  A page
that shows no practice problem and holds no backend-supplied value with a `<`
has no `userCode` element.  `currentProblem` itself is never checked:
whenever both elements are found and the code is not blank, in particular
whenever a practice problem is in the page, one validate request carrying
`currentTopic`, `currentProblem` and the code is sent, also when
`currentProblem` is empty. -/
theorem submitSolution_guards (s : State) (code : String) (dom : Injected) :
    (trim code = "" →
      (submitSolution code dom s).1 = s ∧ transportCalls (submitSolution code dom s).2 = []) ∧
    (findUserCode s dom = false → submitSolution code dom s = (s, [Effect.throws])) ∧
    (findFeedbackArea s dom = none →
      (submitSolution code dom s).1 = s ∧ transportCalls (submitSolution code dom s).2 = []) ∧
    (pageInert s = true → (∀ t p e fb, s.practiceArea ≠ PracticeHtml.practice t p e fb) →
      submitSolution code dom s = (s, [Effect.throws])) ∧
    (findUserCode s dom = true → trim code ≠ "" →
      ∀ ref, findFeedbackArea s dom = some ref →
        submitSolution code dom s
          = (writeFeedback ref FeedbackHtml.loading s,
             [Effect.fetch ⟨API_BASE_URL ++ "/validate",
                jsonStringify [("topic", JsVal.str s.currentTopic),
                  ("problem", s.currentProblem), ("code", JsVal.str code)]⟩])) ∧
    (∀ t p e fb, s.practiceArea = PracticeHtml.practice t p e fb → trim code ≠ "" →
      (submitSolution code dom s).2
        = [Effect.fetch ⟨API_BASE_URL ++ "/validate",
            jsonStringify [("topic", JsVal.str s.currentTopic),
              ("problem", s.currentProblem), ("code", JsVal.str code)]⟩] ∧
      (pageInert s = true →
        (submitSolution code dom s).1
          = { s with practiceArea := PracticeHtml.practice t p e FeedbackHtml.loading })) := by
  refine ⟨fun hb => ?_, fun hu => ?_, fun hf => ?_, fun hi hno => ?_,
    fun hu hnb ref hf => ?_, fun t p e fb hp hnb => ?_⟩
  · unfold submitSolution
    split
    · simp [hb, transportCalls]
    · simp [transportCalls]
  · simp [submitSolution, hu]
  · unfold submitSolution
    split
    · split
      · simp [transportCalls]
      · simp [hf, transportCalls]
    · simp [transportCalls]
  · simp [submitSolution, findUserCode_inert s dom hi hno]
  · simp [submitSolution, hu, hnb, hf]
  · have hu := findUserCode_template s dom t p e fb hp
    obtain ⟨ref, hf⟩ := findFeedbackArea_template s dom t p e fb hp
    refine ⟨by simp [submitSolution, hu, hnb, hf], fun hi => ?_⟩
    have hf2 := findFeedbackArea_inert s dom t p e fb hi hp
    simp only [submitSolution, hu, hnb, hf2, if_true, if_false]
    exact writeFeedback_template s _ t p e fb hp

theorem submitSolution_guards_witness :
    trim "  \n" = "" ∧ (submitSolution "  \n" noInjected init).1 = init ∧
    transportCalls (submitSolution "  \n" noInjected init).2 = [] ∧
    pageInert init = true ∧
    submitSolution "x = 1" noInjected init = (init, [Effect.throws]) ∧
    (submitSolution "x = 1" noInjected
      (practiceResolved (Response.json (Data.object factorialBody))
        (loadPractice (selectTopic "Recursion" init).1).1)).2
      = [Effect.fetch ⟨API_BASE_URL ++ "/validate",
          jsonStringify [("topic", JsVal.str "Recursion"),
            ("problem", JsVal.str "Write a factorial function"),
            ("code", JsVal.str "x = 1")]⟩] ∧
    findUserCode (examplesResolved (Response.json (Data.object markupBody))
      (loadExamples (selectTopic "Recursion" init).1).1) ⟨true, some 0⟩ = true ∧
    (submitSolution "x = 1" ⟨true, some 0⟩
      (examplesResolved (Response.json (Data.object markupBody))
        (loadExamples (selectTopic "Recursion" init).1).1)).2
      = [Effect.fetch ⟨API_BASE_URL ++ "/validate",
          jsonStringify [("topic", JsVal.str "Recursion"), ("problem", JsVal.str ""),
            ("code", JsVal.str "x = 1")]⟩] :=
  ⟨by decide, ((submitSolution_guards init "  \n" noInjected).1 (by decide)).1,
    ((submitSolution_guards init "  \n" noInjected).1 (by decide)).2,
    by decide,
    (submitSolution_guards init "x = 1" noInjected).2.2.2.1 (by decide)
      (fun t p e fb h => by simp [init] at h),
    ((submitSolution_guards (practiceResolved (Response.json (Data.object factorialBody))
      (loadPractice (selectTopic "Recursion" init).1).1) "x = 1" noInjected).2.2.2.2.2
      (JsVal.str "Recursion")
      (JsVal.str "Write a factorial function") 0 FeedbackHtml.empty (by decide) (by decide)).1,
    by decide,
    congrArg Prod.snd ((submitSolution_guards (examplesResolved
      (Response.json (Data.object markupBody)) (loadExamples (selectTopic "Recursion" init).1).1)
      "x = 1" ⟨true, some 0⟩).2.2.2.2.1 (by decide) (by decide) (FeedbackRef.foreign 0) (by decide))⟩

/-- C5, as stated, fails: with "Recursion" selected and an examples fetch
outstanding, a response that carries an `error` field holding the empty
string is not treated as a failure; the Examples panel becomes Populated. -/
theorem examples_error_counterexample :
    prop emptyErrorBody "error" = JsVal.str "" ∧
    panelStatus (run [Action.selectTopic "Recursion", Action.loadExamples] init).1
      PanelKind.examples = PanelStatus.loading ∧
    panelStatus (examplesResolved (Response.json (Data.object emptyErrorBody))
      (run [Action.selectTopic "Recursion", Action.loadExamples] init).1) PanelKind.examples
      = PanelStatus.populated (Content.examples (JsVal.str "Recursion") JsVal.undefined) := by
  decide

/-- C5 (amended): for every state, an examples response that fails, meaning
the decoded body has a truthy `error` (then `msg` is that value), or the call
or the decoding throws or the body is `null` (then `msg` is the fixed text),
puts the Failed markup with `msg` into the examples area, which shows as
panel status Failed(msg) whenever the area is displayed, and changes nothing
else: the Explanation, Practice and Feedback panels, `currentTopic` and
`currentProblem` are exactly as before. -/
theorem examples_failure_isolated (s : State) (r : Response) (msg : JsVal)
    (hfail : (r = Response.rejected ∧ msg = JsVal.str "Failed to load examples") ∨
      (r = Response.json Data.null ∧ msg = JsVal.str "Failed to load examples") ∨
      (∃ fields, r = Response.json (Data.object fields) ∧
        (prop fields "error").truthy = true ∧ msg = prop fields "error")) :
    examplesResolved r s = { s with examplesArea := ExamplesHtml.error msg } ∧
    (s.examplesShown = true →
      panelStatus (examplesResolved r s) PanelKind.examples = PanelStatus.failed msg) ∧
    panelStatus (examplesResolved r s) PanelKind.explanation
      = panelStatus s PanelKind.explanation ∧
    panelStatus (examplesResolved r s) PanelKind.practice = panelStatus s PanelKind.practice ∧
    panelStatus (examplesResolved r s) PanelKind.feedback = panelStatus s PanelKind.feedback ∧
    (examplesResolved r s).currentTopic = s.currentTopic ∧
    (examplesResolved r s).currentProblem = s.currentProblem := by
  have key : examplesResolved r s = { s with examplesArea := ExamplesHtml.error msg } := by
    rcases hfail with ⟨rfl, rfl⟩ | ⟨rfl, rfl⟩ | ⟨fields, rfl, herr, rfl⟩
    · rfl
    · rfl
    · simp [examplesResolved, herr]
  rw [key]
  refine ⟨rfl, fun hs => ?_, rfl, rfl, rfl, rfl, rfl⟩
  simp [panelStatus, hs]

theorem examples_failure_isolated_witness :
    panelStatus (examplesResolved (Response.json (Data.object quotaErrorBody))
      (run [Action.selectTopic "Recursion", Action.loadExamples] init).1) PanelKind.examples
      = PanelStatus.failed (JsVal.str "Quota exceeded") :=
  (examples_failure_isolated (run [Action.selectTopic "Recursion", Action.loadExamples] init).1
    (Response.json (Data.object quotaErrorBody)) (JsVal.str "Quota exceeded")
    (Or.inr (Or.inr ⟨quotaErrorBody, rfl, by decide, by decide⟩))).2.1 (by decide)

/-- C6, as stated, fails: once a problem has been fetched for "Recursion",
`currentProblem` stays non-empty while the Practice panel is Loading (a second
`loadPractice`), Failed (that fetch is rejected) and Hidden (another topic is
selected). -/
theorem activeProblem_counterexample :
    panelStatus (run [Action.selectTopic "Recursion", Action.loadPractice,
      Action.practiceResolved (Response.json (Data.object factorialBody)),
      Action.loadPractice] init).1 PanelKind.practice = PanelStatus.loading ∧
    isEmpty (run [Action.selectTopic "Recursion", Action.loadPractice,
      Action.practiceResolved (Response.json (Data.object factorialBody)),
      Action.loadPractice] init).1.currentProblem = false ∧
    panelStatus (run [Action.selectTopic "Recursion", Action.loadPractice,
      Action.practiceResolved (Response.json (Data.object factorialBody)),
      Action.loadPractice, Action.practiceResolved Response.rejected] init).1
      PanelKind.practice = PanelStatus.failed (JsVal.str "Failed to load practice problem") ∧
    isEmpty (run [Action.selectTopic "Recursion", Action.loadPractice,
      Action.practiceResolved (Response.json (Data.object factorialBody)),
      Action.loadPractice, Action.practiceResolved Response.rejected] init).1.currentProblem
      = false ∧
    panelStatus (run [Action.selectTopic "Recursion", Action.loadPractice,
      Action.practiceResolved (Response.json (Data.object factorialBody)),
      Action.loadPractice, Action.practiceResolved Response.rejected,
      Action.selectTopic "Loops"] init).1 PanelKind.practice = PanelStatus.hidden ∧
    isEmpty (run [Action.selectTopic "Recursion", Action.loadPractice,
      Action.practiceResolved (Response.json (Data.object factorialBody)),
      Action.loadPractice, Action.practiceResolved Response.rejected,
      Action.selectTopic "Loops"] init).1.currentProblem = false := by
  decide

/-- C6 (amended): after any sequence of actions from the initial state,
`currentProblem` is non-empty only if one of the actions was a practice
response that took the success path and carried exactly that value; whenever
the Practice panel is Populated, the problem it shows is `currentProblem`.
The variable is written by nothing else: an action changes it only if it is
such a practice response, so it is kept while the panel is Hidden, Loading or
Failed. -/
theorem currentProblem_provenance (acts : List Action) :
    ((run acts init).1.currentProblem.truthy = true →
      ∃ fields, Action.practiceResolved (Response.json (Data.object fields)) ∈ acts ∧
        (prop fields "error").truthy = false ∧
        prop fields "problem" = (run acts init).1.currentProblem) ∧
    (∀ t p, panelStatus (run acts init).1 PanelKind.practice
        = PanelStatus.populated (Content.practice t p) →
      (run acts init).1.currentProblem = p) ∧
    (∀ (a : Action) (s : State), (step a s).1.currentProblem ≠ s.currentProblem →
      ∃ fields, a = Action.practiceResolved (Response.json (Data.object fields)) ∧
        (prop fields "error").truthy = false ∧
        (step a s).1.currentProblem = prop fields "problem") := by
  have hinv : ProblemInv acts (run acts init).1 := by
    simpa using problemInv_run acts problemInv_init
  refine ⟨hinv.1, fun t p hst => ?_, step_currentProblem⟩
  simp only [panelStatus] at hst
  split at hst
  · split at hst
    · simp at hst
    · simp at hst
    · simp at hst
    · rename_i t0 p0 e0 fb0 heq
      simp only [PanelStatus.populated.injEq, Content.practice.injEq] at hst
      rw [← hst.2]
      exact (hinv.2 t0 p0 e0 fb0 heq).symm
  · simp at hst

theorem currentProblem_provenance_witness :
    (run [Action.selectTopic "Recursion", Action.loadPractice,
      Action.practiceResolved (Response.json (Data.object factorialBody))]
      init).1.currentProblem = JsVal.str "Write a factorial function" :=
  (currentProblem_provenance [Action.selectTopic "Recursion", Action.loadPractice,
      Action.practiceResolved (Response.json (Data.object factorialBody))]).2.1
    (JsVal.str "Recursion") (JsVal.str "Write a factorial function") (by decide)

/-- C7, as stated, fails: "Loops" is selected while a practice fetch started
for "Recursion" is outstanding; a topic is selected and the response has no
error and carries a problem, yet the Practice panel does not become
Populated: the area is not displayed and the panel stays Hidden. -/
theorem practice_completion_counterexample :
    (run [Action.selectTopic "Recursion", Action.loadPractice,
      Action.selectTopic "Loops"] init).1.currentTopic ≠ "" ∧
    (prop factorialBody "error").truthy = false ∧
    panelStatus (practiceResolved (Response.json (Data.object factorialBody))
      (run [Action.selectTopic "Recursion", Action.loadPractice,
        Action.selectTopic "Loops"] init).1) PanelKind.practice = PanelStatus.hidden ∧
    panelStatus (practiceResolved (Response.json (Data.object factorialBody))
      (run [Action.selectTopic "Recursion", Action.loadPractice,
        Action.selectTopic "Loops"] init).1) PanelKind.practice
      ≠ PanelStatus.populated
          (Content.practice (JsVal.str "Recursion") (JsVal.str "Write a factorial function")) := by
  decide

/-- C7 (amended): a practice fetch is started by `loadPractice` with a topic
selected and other actions may follow.  When its response arrives with no
truthy `error` and carrying `problem = P`, `currentProblem` equals `P`, the
practice area holds the markup of the response's topic and `P`, and a
`submitSolution` with code that is not blank then sends exactly one request,
to the validate endpoint, with body `topic` (the selected topic), `problem`
(`P` as `JSON.stringify` writes it: `P` itself unless it is a non-finite
number, which is written `null`) and `code`.  When no topic was selected
between the trigger and the response, the Practice panel is Populated with
that content and the selected topic is the one the fetch was started for. -/
theorem practice_completion (s : State) (mid : List Action) (fields : List (String × JsVal))
    (P : JsVal) (htopic : s.currentTopic ≠ "")
    (hok : (prop fields "error").truthy = false)
    (hP : prop fields "problem" = P) (hdef : P ≠ JsVal.undefined) :
    (practiceResolved (Response.json (Data.object fields))
        (run mid (loadPractice s).1).1).currentProblem = P ∧
    (practiceResolved (Response.json (Data.object fields))
        (run mid (loadPractice s).1).1).practiceArea
      = PracticeHtml.practice (prop fields "topic") P (run mid (loadPractice s).1).1.nextElem
          FeedbackHtml.empty ∧
    (∀ (code : String) (dom : Injected), trim code ≠ "" →
      (submitSolution code dom (practiceResolved (Response.json (Data.object fields))
        (run mid (loadPractice s).1).1)).2
      = [Effect.fetch ⟨API_BASE_URL ++ "/validate",
          [("topic", JsVal.str (practiceResolved (Response.json (Data.object fields))
              (run mid (loadPractice s).1).1).currentTopic),
           ("problem", P.toJson), ("code", JsVal.str code)]⟩]) ∧
    ((∀ v, P ≠ JsVal.infinity v) → P.toJson = P) ∧
    ((∀ a ∈ mid, a.isSelectTopic = false) →
      panelStatus (practiceResolved (Response.json (Data.object fields))
          (run mid (loadPractice s).1).1) PanelKind.practice
        = PanelStatus.populated (Content.practice (prop fields "topic") P) ∧
      (practiceResolved (Response.json (Data.object fields))
          (run mid (loadPractice s).1).1).currentTopic = s.currentTopic) := by
  subst hP
  have harea : (practiceResolved (Response.json (Data.object fields))
      (run mid (loadPractice s).1).1).practiceArea
      = PracticeHtml.practice (prop fields "topic") (prop fields "problem")
          (run mid (loadPractice s).1).1.nextElem FeedbackHtml.empty := by
    simp [practiceResolved, displayPractice, hok]
  have hprob : (practiceResolved (Response.json (Data.object fields))
      (run mid (loadPractice s).1).1).currentProblem = prop fields "problem" := by
    simp [practiceResolved, displayPractice, hok]
  refine ⟨hprob, harea, fun code dom hcode => ?_, fun hfin => ?_, fun hmid => ?_⟩
  · have hu := findUserCode_template _ dom _ _ _ _ harea
    obtain ⟨ref, hf⟩ := findFeedbackArea_template _ dom _ _ _ _ harea
    have hne : (prop fields "problem" != JsVal.undefined) = true := by simpa using hdef
    simp [submitSolution, hu, hcode, hf, hprob, jsonStringify, hne, JsVal.toJson]
  · cases hv : prop fields "problem" <;> first | rfl | exact absurd hv (hfin _)
  · have h0 : (loadPractice s).1.practiceShown = true ∧
        (loadPractice s).1.currentTopic = s.currentTopic := by
      simp [loadPractice, htopic]
    have h1 := run_keeps_practice_shown mid (loadPractice s).1 hmid h0.1
    rw [h0.2] at h1
    refine ⟨?_, ?_⟩
    · simp [practiceResolved, displayPractice, hok, panelStatus, h1.1]
    · simp [practiceResolved, displayPractice, hok, h1.2]

theorem practice_completion_witness :
    (selectTopic "Recursion" init).1.currentTopic ≠ "" ∧
    (submitSolution "def f(n): return 1" noInjected
      (practiceResolved (Response.json (Data.object factorialBody))
        (run [Action.loadExamples, Action.explainResolved Response.rejected]
          (loadPractice (selectTopic "Recursion" init).1).1).1)).2
      = [Effect.fetch ⟨API_BASE_URL ++ "/validate",
          [("topic", JsVal.str "Recursion"),
           ("problem", JsVal.str "Write a factorial function"),
           ("code", JsVal.str "def f(n): return 1")]⟩] ∧
    panelStatus (practiceResolved (Response.json (Data.object factorialBody))
        (run [Action.loadExamples, Action.explainResolved Response.rejected]
          (loadPractice (selectTopic "Recursion" init).1).1).1) PanelKind.practice
      = PanelStatus.populated
          (Content.practice (JsVal.str "Recursion") (JsVal.str "Write a factorial function")) :=
  ⟨by decide,
    (practice_completion (selectTopic "Recursion" init).1
      [Action.loadExamples, Action.explainResolved Response.rejected] factorialBody
      (JsVal.str "Write a factorial function") (by decide) (by decide) (by decide)
      (by decide)).2.2.1 "def f(n): return 1" noInjected (by decide),
    ((practice_completion (selectTopic "Recursion" init).1
      [Action.loadExamples, Action.explainResolved Response.rejected] factorialBody
      (JsVal.str "Write a factorial function") (by decide) (by decide) (by decide)
      (by decide)).2.2.2.2 (by decide)).1⟩

/-- C8, as stated, fails: with a practice fetch outstanding for "Recursion",
a response whose `error` field is present and holds the empty string is not
treated as a backend error: the success path runs, the Practice panel becomes
Populated instead of Failed and `currentProblem` is updated. -/
theorem backend_error_counterexample :
    prop emptyErrorBody "error" = JsVal.str "" ∧
    (run [Action.selectTopic "Recursion", Action.loadPractice] init).1.currentProblem
      = JsVal.str "" ∧
    panelStatus (practiceResolved (Response.json (Data.object emptyErrorBody))
      (run [Action.selectTopic "Recursion", Action.loadPractice] init).1) PanelKind.practice
      = PanelStatus.populated
          (Content.practice (JsVal.str "Recursion") (JsVal.str "Write a factorial function")) ∧
    (practiceResolved (Response.json (Data.object emptyErrorBody))
      (run [Action.selectTopic "Recursion", Action.loadPractice] init).1).currentProblem
      = JsVal.str "Write a factorial function" := by
  decide

/-- C8 (amended): for each of the explain, examples, practice and validate
calls, a decoded body whose `error` is truthy (a non-empty string, for
instance) is treated as a backend error: the only change is that the panel's
area receives the Failed markup with the `error` value itself, so the success
path is not taken and `currentProblem` is not updated; the panel status is
then Failed with that value (for Examples, Practice and Feedback, when the
area is displayed).  For validate the markup goes to the feedback element
found at submission, and nothing changes when that element has left the page.
A thrown call or decoding, or a `null` body, gives the fixed text of the
call, whatever the failure.  A body whose `error` is falsy, present (the
empty string) or absent, takes the success path on every one of the four
calls: the area receives the content markup built from the body and, for
practice, `currentProblem` becomes its `problem`. -/
theorem backend_error_mapping (s : State) :
    (∀ fields : List (String × JsVal), (prop fields "error").truthy = true →
      explainResolved (Response.json (Data.object fields)) s
        = { s with explanationArea := ExplanationHtml.error (prop fields "error") } ∧
      examplesResolved (Response.json (Data.object fields)) s
        = { s with examplesArea := ExamplesHtml.error (prop fields "error") } ∧
      practiceResolved (Response.json (Data.object fields)) s
        = { s with practiceArea := PracticeHtml.error (prop fields "error") } ∧
      (∀ dom t p e fb, s.practiceArea = PracticeHtml.practice t p e fb →
        validateResolved (FeedbackRef.template e) dom (Response.json (Data.object fields)) s
          = { s with
              practiceArea :=
                PracticeHtml.practice t p e (FeedbackHtml.error (prop fields "error")) }) ∧
      (∀ dom c, (∀ t p fb, s.practiceArea ≠ PracticeHtml.practice t p c fb) →
        validateResolved (FeedbackRef.template c) dom (Response.json (Data.object fields)) s
          = s) ∧
      (∀ dom n,
        validateResolved (FeedbackRef.foreign n) dom (Response.json (Data.object fields)) s
          = { s with
              foreignFeedback :=
                (n, FeedbackHtml.error (prop fields "error")) :: s.foreignFeedback }) ∧
      panelStatus (explainResolved (Response.json (Data.object fields)) s)
        PanelKind.explanation = PanelStatus.failed (prop fields "error") ∧
      (s.examplesShown = true →
        panelStatus (examplesResolved (Response.json (Data.object fields)) s)
          PanelKind.examples = PanelStatus.failed (prop fields "error")) ∧
      (s.practiceShown = true →
        panelStatus (practiceResolved (Response.json (Data.object fields)) s)
          PanelKind.practice = PanelStatus.failed (prop fields "error")) ∧
      (s.practiceShown = true →
        ∀ dom t p e fb, s.practiceArea = PracticeHtml.practice t p e fb →
          panelStatus
            (validateResolved (FeedbackRef.template e) dom
              (Response.json (Data.object fields)) s)
            PanelKind.feedback = PanelStatus.failed (prop fields "error"))) ∧
    (∀ r : Response, r = Response.rejected ∨ r = Response.json Data.null →
      explainResolved r s
        = { s with
            explanationArea :=
              ExplanationHtml.error (JsVal.str "Failed to load explanation") } ∧
      examplesResolved r s
        = { s with examplesArea := ExamplesHtml.error (JsVal.str "Failed to load examples") } ∧
      practiceResolved r s
        = { s with
            practiceArea :=
              PracticeHtml.error (JsVal.str "Failed to load practice problem") } ∧
      (∀ dom t p e fb, s.practiceArea = PracticeHtml.practice t p e fb →
        validateResolved (FeedbackRef.template e) dom r s
          = { s with
              practiceArea :=
                PracticeHtml.practice t p e
                  (FeedbackHtml.error (JsVal.str "Failed to validate solution")) }) ∧
      (∀ dom c, (∀ t p fb, s.practiceArea ≠ PracticeHtml.practice t p c fb) →
        validateResolved (FeedbackRef.template c) dom r s = s) ∧
      (∀ dom n,
        validateResolved (FeedbackRef.foreign n) dom r s
          = { s with
              foreignFeedback :=
                (n, FeedbackHtml.error (JsVal.str "Failed to validate solution"))
                  :: s.foreignFeedback })) ∧
    (∀ fields : List (String × JsVal), (prop fields "error").truthy = false →
      explainResolved (Response.json (Data.object fields)) s
        = { s with
            explanationArea :=
              ExplanationHtml.explanation (prop fields "topic")
                (prop fields "base_description") (prop fields "base_example")
                (prop fields "detailed_explanation") } ∧
      examplesResolved (Response.json (Data.object fields)) s
        = { s with
            examplesArea :=
              ExamplesHtml.examples (prop fields "topic") (prop fields "examples") } ∧
      practiceResolved (Response.json (Data.object fields)) s
        = { s with
            currentProblem := prop fields "problem"
            practiceArea :=
              PracticeHtml.practice (prop fields "topic") (prop fields "problem") s.nextElem
                FeedbackHtml.empty
            nextElem := s.nextElem + 1 } ∧
      (∀ c dom ref, findFeedbackArea s dom = some ref →
        validateResolved c dom (Response.json (Data.object fields)) s
          = writeFeedback ref (FeedbackHtml.feedback (prop fields "feedback")) s) ∧
      (∀ c dom t p e fb, s.practiceArea = PracticeHtml.practice t p e fb →
        pageInert s = true →
        validateResolved c dom (Response.json (Data.object fields)) s
          = { s with
              practiceArea :=
                PracticeHtml.practice t p e
                  (FeedbackHtml.feedback (prop fields "feedback")) })) := by
  refine ⟨fun fields herr => ?_, fun r hr => ?_, fun fields hok => ?_⟩
  · refine ⟨by simp [explainResolved, herr], by simp [examplesResolved, herr],
      by simp [practiceResolved, herr], fun dom t p e fb hp => ?_, fun dom c hno => ?_,
      fun dom n => ?_,
      by simp [explainResolved, herr, panelStatus],
      fun hs => by simp [examplesResolved, herr, panelStatus, hs],
      fun hs => by simp [practiceResolved, herr, panelStatus, hs],
      fun hs dom t p e fb hp => ?_⟩
    · simp only [validateResolved, herr, if_true]
      exact writeFeedback_template s _ t p e fb hp
    · simp only [validateResolved, herr, if_true]
      exact writeFeedback_gone s _ c hno
    · simp only [validateResolved, herr, if_true]
      rfl
    · simp only [validateResolved, herr, if_true]
      rw [writeFeedback_template s _ t p e fb hp]
      simp [panelStatus, hs, feedbackStatus]
  · rcases hr with rfl | rfl
    · exact ⟨rfl, rfl, rfl, fun dom t p e fb hp => writeFeedback_template s _ t p e fb hp,
        fun dom c hno => writeFeedback_gone s _ c hno, fun dom n => rfl⟩
    · exact ⟨rfl, rfl, rfl, fun dom t p e fb hp => writeFeedback_template s _ t p e fb hp,
        fun dom c hno => writeFeedback_gone s _ c hno, fun dom n => rfl⟩
  · refine ⟨by simp [explainResolved, displayExplanation, hok],
      by simp [examplesResolved, displayExamples, hok],
      by simp [practiceResolved, displayPractice, hok],
      fun c dom ref hf => ?_, fun c dom t p e fb hp hi => ?_⟩
    · simp [validateResolved, displayFeedback, hok, hf]
    · have hf := findFeedbackArea_inert s dom t p e fb hi hp
      simp only [validateResolved, displayFeedback, hok, hf]
      exact writeFeedback_template s _ t p e fb hp

theorem backend_error_mapping_witness :
    (prop quotaErrorBody "error").truthy = true ∧
    panelStatus (practiceResolved (Response.json (Data.object quotaErrorBody))
      (run [Action.selectTopic "Recursion", Action.loadPractice] init).1) PanelKind.practice
      = PanelStatus.failed (JsVal.str "Quota exceeded") ∧
    explainResolved Response.rejected init
      = { init with
          explanationArea :=
            ExplanationHtml.error (JsVal.str "Failed to load explanation") } ∧
    (prop emptyErrorBody "error").truthy = false ∧
    explainResolved (Response.json (Data.object emptyErrorBody)) (selectTopic "Recursion" init).1
      = { (selectTopic "Recursion" init).1 with
          explanationArea :=
            ExplanationHtml.explanation (JsVal.str "Recursion") JsVal.undefined
              JsVal.undefined JsVal.undefined } :=
  ⟨by decide,
    ((backend_error_mapping (run [Action.selectTopic "Recursion", Action.loadPractice] init).1).1
      quotaErrorBody (by decide)).2.2.2.2.2.2.2.2.1 (by decide),
    ((backend_error_mapping init).2.1 Response.rejected (Or.inl rfl)).1,
    by decide,
    ((backend_error_mapping (selectTopic "Recursion" init).1).2.2 emptyErrorBody
      (by decide)).1⟩

end AITutor
